/-
Verification of the erpnext_moldova_banking core against its specification.

Shallow embedding of:
  * the DBO statement lexer and transaction deriver
    (moldova_bank_statement_import.py: is_dbo_format, parse_dbo),
  * the duplicate-detection fingerprint
    (bank_transaction_unique_key.py),
  * the automation rule engine and posting pre-existence guards
    (bank_transaction_automation.py: handle_bank_transaction,
     create_payment_entry_from_transaction, create_journal_entry_from_transaction),
  * the reconciliation linkers
    (bank_transaction_automation.py: reconcile_pe_and_bt, reconcile_je_and_bt).

Monetary values are modelled as rationals (Python floats in the source);
dates are kept as their source strings (the Python code only moves them
around, compares them, or formats them back out).  String primitives such
as strip/split are implemented structurally over the character list so that
concrete instances evaluate inside the kernel; each mirrors the Python
operation named in its doc comment.
-/
import Mathlib

/- Batteries marks the `Rat` arithmetic operations `@[irreducible]`, which
blocks `decide` on concrete rational computations; re-marking them
`semireducible` restores evaluation without changing any definition. -/
attribute [local semireducible] Rat.mul Rat.add Rat.sub Rat.inv Rat.ofScientific

set_option maxRecDepth 8000

/-! ## Python-style string primitives -/

/-- ASCII whitespace, the characters Python's `str.strip()` removes in
the statement files at hand. -/
def isSpaceChar (c : Char) : Bool :=
  c = ' ' || c = '\t' || c = '\n' || c = '\r' || c = '\x0b' || c = '\x0c'

/-- Models Python `str.strip()` on the character list. -/
def trimChars (cs : List Char) : List Char :=
  ((cs.dropWhile isSpaceChar).reverse.dropWhile isSpaceChar).reverse

/-- Models Python `str.strip()`. -/
def pyStrip (s : String) : String :=
  String.mk (trimChars s.data)

/-- Split a character list on a separator character (Python `str.split(sep)`
for a one-character separator). -/
def splitChar (sep : Char) : List Char → List (List Char)
  | [] => [[]]
  | c :: cs =>
      match splitChar sep cs with
      | [] => []
      | l :: ls => if c = sep then [] :: l :: ls else (c :: l) :: ls

/-- Models Python `str.split("=", 1)` succeeding: returns the text before the
first `=` and the text after it, or `none` when the line has no `=`
(the `"=" in line` test). -/
def splitEqOnce (cs : List Char) : Option (List Char × List Char) :=
  match cs.span (fun c => c ≠ '=') with
  | (before, '=' :: after) => some (before, after)
  | _ => none

/-- Models Python `str.upper()` (ASCII, as used for the statement keys). -/
def pyUpper (s : String) : String :=
  String.mk (s.data.map Char.toUpper)

/-- Models Python `str.lower()` (ASCII, as used for rule patterns). -/
def pyLower (s : String) : String :=
  String.mk (s.data.map Char.toLower)

/-- Models Python's substring test `tag in content`. -/
def containsSub (content tag : String) : Bool :=
  go tag.data content.data
where
  go (pat : List Char) : List Char → Bool
    | [] => pat.isPrefixOf []
    | c :: cs => pat.isPrefixOf (c :: cs) || go pat cs

/-- Models Python `s[:n]` (string truncation). -/
def pyTake (s : String) (n : Nat) : String :=
  String.mk (s.data.take n)

/-! ## Python-style numeric primitives -/

/-- Numeric value of a list of decimal digit characters. -/
def digitsVal (cs : List Char) : Nat :=
  cs.foldl (fun a c => a * 10 + (c.toNat - 48)) 0

/-- Every character is an ASCII digit. -/
def isDigits (cs : List Char) : Bool :=
  cs.all (fun c => 48 ≤ c.toNat ∧ c.toNat ≤ 57)

/-- Models `frappe.utils.flt` on plain decimal literals: optional sign, an
integer part and an optional fractional part; any input Python's `float()`
rejects (and `flt` therefore maps to its default) yields `0`.  Scientific
notation is not modelled; no field relevant to the claims uses it. -/
def fltStr (s : String) : ℚ :=
  let t := trimChars s.data
  let sgn : ℚ := match t with
    | '-' :: _ => -1
    | _ => 1
  let u : List Char := match t with
    | '-' :: r => r
    | '+' :: r => r
    | r => r
  match splitChar '.' u with
  | [ip] =>
      if ip ≠ [] ∧ isDigits ip then sgn * (digitsVal ip : ℚ) else 0
  | [ip, fp] =>
      if (ip ≠ [] ∨ fp ≠ []) ∧ isDigits ip ∧ isDigits fp then
        sgn * ((digitsVal ip : ℚ) + (digitsVal fp : ℚ) / ((10 : ℚ) ^ fp.length))
      else 0
  | _ => 0

/-- Round a rational to the nearest integer, halves up: `⌊q + 1/2⌋`. -/
def roundHalfQ (q : ℚ) : ℤ :=
  (2 * q.num + (q.den : ℤ)).fdiv (2 * (q.den : ℤ))

/-- Two-digit rendering of a number below 100. -/
def pad2 (n : Nat) : String :=
  if n < 10 then "0" ++ toString n else toString n

/-- Models Python's `f"{x:.2f}"`: the value rounded to two decimal places.
(Rounding of exact half-cents and the sign of a negative value that rounds
to zero follow the rational rounding here rather than binary-float
formatting; no claim depends on those edge cases.) -/
def format2 (q : ℚ) : String :=
  let c : ℤ := roundHalfQ (q * 100)
  let sgn := if c < 0 then "-" else ""
  sgn ++ toString (c.natAbs / 100) ++ "." ++ pad2 (c.natAbs % 100)

/-- Python truthiness of an optional string (`None` and `""` are falsy). -/
def truthyS (o : Option String) : Bool :=
  o.getD "" ≠ ""

/-! ## Statement lexer (`parse_dbo`, first half) -/

/-- A Python dict with string keys and values, modelled as a shadowing
association list: setting a key conses it in front, lookup takes the first
hit.  Only `get`/`[]=` are used by the source. -/
abbrev Dict := List (String × String)

/-- Python `d[k] = v`. -/
def dictSet (m : Dict) (k v : String) : Dict :=
  (k, v) :: m

/-- Python `d.get(k)`. -/
def dictGet (m : Dict) (k : String) : Option String :=
  m.lookup k

/-- Models `(doc.get(KEY) or "").strip()`, the accessor used throughout the
second half of `parse_dbo`. -/
def dgetS (d : Dict) (k : String) : String :=
  pyStrip ((dictGet d k).getD "")

/-- The lexer state of `parse_dbo`'s line loop. -/
structure LexState where
  header : Dict
  docs : List Dict
  current_doc : Option Dict
  in_account_section : Bool

/-- One iteration of the `for line in lines` loop of `parse_dbo`
(moldova_bank_statement_import.py lines 440-474), translated branch for
branch.  Note the `if current_doc:` truthiness test on `DocEnd`: an empty
block is neither emitted nor closed. -/
def lexLine (st : LexState) (line : String) : LexState :=
  if line = "SECTIONACCOUNTSTART" then { st with in_account_section := true }
  else if line = "SECTIONACCOUNTSTOP" then { st with in_account_section := false }
  else if line = "DocStart" then { st with current_doc := some [] }
  else if line = "DocEnd" then
    match st.current_doc with
    | some d => if d ≠ [] then { st with docs := st.docs ++ [d], current_doc := none } else st
    | none => st
  else
    match splitEqOnce line.data with
    | some (k, v) =>
        let key := pyUpper (pyStrip (String.mk k))
        let value := pyStrip (String.mk v)
        if st.in_account_section then { st with header := dictSet st.header key value }
        else match st.current_doc with
          | some d => { st with current_doc := some (dictSet d key value) }
          | none => { st with header := dictSet st.header key value }
    | none => st

/-- `lines = [ln.strip() for ln in content.splitlines() if ln.strip()]`
(carriage returns fall to the strip; `splitlines` versus a plain newline
split only differs on lines that are blank after stripping, which are
filtered either way). -/
def dboLines (content : String) : List String :=
  ((splitChar '\n' content.data).map (fun l => String.mk (trimChars l))).filter
    (fun l => l ≠ "")

/-- The lexing half of `parse_dbo`: header fields and document blocks.
An unterminated open block at end of input is discarded (the loop result
drops `current_doc`). -/
def lexDBO (content : String) : Dict × List Dict :=
  let final := (dboLines content).foldl lexLine ⟨[], [], none, false⟩
  (final.header, final.docs)

/-- `is_dbo_format` (moldova_bank_statement_import.py lines 227-230): all
required tags occur somewhere in the content. -/
def is_dbo_format (content : String) : Bool :=
  ["DocStart", "DocEnd", "BEGINDATE", "ENDDATE"].all (fun tag => containsSub content tag)

/-! ## Transaction deriver (`parse_dbo`, second half) -/

/-- A derived transaction dict, with the keys listed at
moldova_bank_statement_import.py lines 480-494. -/
structure Transaction where
  date : Option String
  description : String
  deposit : ℚ
  withdrawal : ℚ
  bank_balance : ℚ
  reference_number : String
  currency : Option String
  cp_role : String
  cp_name : String
  cp_account : String
  cp_idno : String
  cp_bank : String
  cp_bank_bic : String
deriving DecidableEq, Inhabited

/-- Models `parse_date`: empty after stripping gives `None`; otherwise the
date is kept as its (stripped) source string — the claims never inspect the
parsed calendar value, only whether one is present. -/
def parse_date (value : String) : Option String :=
  let v := pyStrip value
  if v = "" then none else some v

/-- The `desc_lines` builder of `parse_dbo` (lines 585-634), translated
append for append and finally newline-joined by the caller. -/
def descLines (ground : String) (amount : ℚ) (document_number date_written_str : String)
    (cp_role cp_name cp_account cp_idno cp_bank cp_bank_bic : String)
    (oper_type transaction_code : String) : List String :=
  let l : List String := if ground ≠ "" then [ground] else []
  let l := if l ≠ [] then l ++ [""] else l
  let l := if amount ≠ 0 then l ++ ["Amount: " ++ format2 amount] else l
  let l := if document_number ≠ "" then l ++ ["Document Number: " ++ document_number] else l
  let l := if date_written_str ≠ "" then l ++ ["Date Written: " ++ date_written_str] else l
  let l :=
    if cp_role ≠ "" ∧
        (cp_name ≠ "" ∨ cp_account ≠ "" ∨ cp_idno ≠ "" ∨ cp_bank ≠ "" ∨ cp_bank_bic ≠ "") then
      let l := if cp_name ≠ "" then l ++ [cp_role ++ ": " ++ cp_name] else l
      let l := if cp_idno ≠ "" then l ++ [cp_role ++ " IDNO: " ++ cp_idno] else l
      let l := if cp_account ≠ "" then l ++ [cp_role ++ " Account: " ++ cp_account] else l
      let l := if cp_bank ≠ "" then l ++ [cp_role ++ " Bank: " ++ cp_bank] else l
      if cp_bank_bic ≠ "" then l ++ [cp_role ++ " Bank BIC: " ++ cp_bank_bic] else l
    else l
  if oper_type ≠ "" ∨ transaction_code ≠ "" then
    let tech_parts : List String :=
      (if oper_type ≠ "" then ["OpType: " ++ oper_type] else []) ++
        (if transaction_code ≠ "" then ["TxnCode: " ++ transaction_code] else [])
    if tech_parts ≠ [] then l ++ [String.intercalate " / " tech_parts] else l
  else l

/-- One iteration of the `for doc in docs` loop of `parse_dbo` (lines
507-650): derive a transaction from one document block, given the header's
account, the statement currency and the running balance before the block.
The transaction's `bank_balance` is the running balance after the block
(the source appends the dict after updating `running_balance`). -/
def mkTxn (account_iban : Option String) (currency : Option String) (balance : ℚ)
    (d : Dict) : Transaction :=
  let document_number := dgetS d "DOCUMENTNUMBER"
  let document_date_str := dgetS d "DOCUMENTDATE"
  let date_written_str := dgetS d "DATEWRITTEN"
  let posting_date := parse_date (if document_date_str ≠ "" then document_date_str else date_written_str)
  let amount := fltStr ((dictGet d "AMOUNT").getD "")
  let payer_account := dgetS d "PAYERACCOUNT"
  let receiver_account := dgetS d "RECEIVERACCOUNT"
  let payer_name := dgetS d "PAYER"
  let receiver_name := dgetS d "RECEIVER"
  let payer_fcode := dgetS d "PAYERFCODE"
  let receiver_fcode := dgetS d "RECEIVERFCODE"
  let payer_bank := dgetS d "PAYERBANK"
  let receiver_bank := dgetS d "RECEIVERBANK"
  let payer_bank_bic := dgetS d "PAYERBANKBIC"
  let receiver_bank_bic := dgetS d "RECEIVERBANKBIC"
  let oper_type := dgetS d "OPERTYPE"
  let transaction_code := dgetS d "TRANSACTIONCODE"
  let base_ground := dgetS d "GROUND"
  let (deposit, withdrawal, newBalance, cp_role, cp_name, cp_account, cp_idno, cp_bank,
      cp_bank_bic) :
      ℚ × ℚ × ℚ × String × String × String × String × String × String :=
    if truthyS account_iban && (payer_account == account_iban.getD "") && !(amount == 0) then
      (0, amount, balance - amount, "Receiver", receiver_name, receiver_account,
        receiver_fcode, receiver_bank, receiver_bank_bic)
    else if truthyS account_iban && (receiver_account == account_iban.getD "") && !(amount == 0) then
      (amount, 0, balance + amount, "Payer", payer_name, payer_account,
        payer_fcode, payer_bank, payer_bank_bic)
    else
      (0, 0, balance, "", "", "", "", "", "")
  { date := posting_date
    description := String.intercalate "\n"
      (descLines base_ground amount document_number date_written_str cp_role cp_name
        cp_account cp_idno cp_bank cp_bank_bic oper_type transaction_code)
    deposit := deposit
    withdrawal := withdrawal
    bank_balance := newBalance
    reference_number := document_number
    currency := currency
    cp_role := cp_role
    cp_name := cp_name
    cp_account := cp_account
    cp_idno := cp_idno
    cp_bank := cp_bank
    cp_bank_bic := cp_bank_bic }

/-- The document loop of `parse_dbo`, threading `running_balance`. -/
def deriveAux (account_iban currency : Option String) : ℚ → List Dict → List Transaction
  | _, [] => []
  | bal, d :: ds =>
      let t := mkTxn account_iban currency bal d
      t :: deriveAux account_iban currency t.bank_balance ds

/-- `account_iban = header.get("ACCOUNT")`. -/
def headerAccount (header : Dict) : Option String :=
  dictGet header "ACCOUNT"

/-- `opening_balance = flt(header.get("STARTREST") or 0)`. -/
def headerOpening (header : Dict) : ℚ :=
  fltStr ((dictGet header "STARTREST").getD "")

/-- `currency_code = (header.get("CURRCODE") or "").strip() or None`. -/
def headerCurrency (header : Dict) : Option String :=
  let c := pyStrip ((dictGet header "CURRCODE").getD "")
  if c = "" then none else some c

/-- The deriving half of `parse_dbo`: document blocks to transactions,
running balance seeded from the opening balance. -/
def deriveTransactions (header : Dict) (docs : List Dict) : List Transaction :=
  deriveAux (headerAccount header) (headerCurrency header) (headerOpening header) docs

/-- `parse_dbo`: lex the statement text, then derive the transactions.
(The min/max posting-date tracking of the source is dead code — the results
are only used in commented-out lines — and is omitted.) -/
def parse_dbo (content : String) : List Transaction :=
  deriveTransactions (lexDBO content).1 (lexDBO content).2

/-! ## Duplicate guard (bank_transaction_unique_key.py) -/

/-- A Bank Transaction as seen by the duplicate guard: the fields consumed
by `make_transaction_unique_key`, the synthesized description, and the
lifecycle state (0 draft, 1 submitted, 2 cancelled). -/
structure BTCand where
  company : String
  bank_account : String
  date : Option String
  deposit : ℚ
  withdrawal : ℚ
  reference_number : String
  description : String
  docstatus : Nat
deriving DecidableEq

/-- `make_transaction_unique_key`: a signed amount (incoming positive,
outgoing negative) formatted to two decimals, the ISO posting date (empty
when absent), the trimmed reference, joined with `::` exactly as the
source's f-string. -/
def make_transaction_unique_key (company bank_account : String) (posting_date : Option String)
    (deposit withdrawal : ℚ) (reference_number : String) : String :=
  company ++ "::" ++ bank_account ++ "::" ++ posting_date.getD "" ++ "::" ++
    format2 (deposit - withdrawal) ++ "::" ++ pyStrip reference_number

/-- The candidate's unique key, with the arguments `ensure_unique_transaction`
passes. -/
def btKey (t : BTCand) : String :=
  make_transaction_unique_key t.company t.bank_account t.date t.deposit t.withdrawal
    t.reference_number

/-- The duplicate test of `ensure_unique_transaction`: stored rows carry the
`unique_key` computed by the same function when they were inserted, and
`frappe.db.exists("Bank Transaction", {"unique_key": unique_key})` matches
on that key alone — no filter on lifecycle state, no look at the
description. -/
def ensure_unique_skips (stored : List BTCand) (t : BTCand) : Bool :=
  stored.any (fun s => btKey s == btKey t)

/-- Modelled from the spec (the duplicate-guard match relation of claim C2,
which is not what the source implements): a previously stored non-cancelled
record matching on company, bank account, posting date, 2-decimal signed
amount and reference number, with the synthesized description as an
additional key when the reference is empty. -/
def claimDuplicateMatch (s t : BTCand) : Bool :=
  !(s.docstatus == 2) && s.company == t.company && s.bank_account == t.bank_account &&
    s.date == t.date &&
    format2 (s.deposit - s.withdrawal) == format2 (t.deposit - t.withdrawal) &&
    pyStrip s.reference_number == pyStrip t.reference_number &&
    (if pyStrip t.reference_number == "" then s.description == t.description else true)

/-! ## Automation rule engine (bank_transaction_automation.py) -/

/-- `normalize_string`: remove spaces, carriage returns and line feeds,
lowercase (the three `replace` calls are a filter of those characters;
lowering afterwards commutes with the filter). -/
def normalize_string (value : String) : String :=
  String.mk ((value.data.filter (fun c => c ≠ ' ' ∧ c ≠ '\n' ∧ c ≠ '\r')).map Char.toLower)

/-- An `Account` document: the fields read by the engine. -/
structure AccountDoc where
  name : String
  account_currency : String
deriving DecidableEq

/-- A row of `settings.automation_rules`, in configured order.  Link fields
are `""` when unset. -/
structure AutomationRule where
  disabled : Bool
  company : String
  bank : String
  document_type : String
  second_account : String
  description_pattern : String
deriving DecidableEq

/-- A Bank Transaction as consumed by the automation engine and the posting
generators. -/
structure BTDoc where
  name : String
  company : String
  bank_account : String
  description : String
  deposit : ℚ
  withdrawal : ℚ
  reference_number : String
  date : Option String
deriving DecidableEq

/-- The collaborators `handle_bank_transaction` reads: the settings flag and
rule list, the Bank Account's bank, the bank account's ledger Account, and
the Account store for rule-configured second accounts. -/
structure AutomationEnv where
  enable_automation : Bool
  automation_rules : List AutomationRule
  ba_bank : String
  ba_account : AccountDoc
  accounts : String → AccountDoc

/-- Outcome of one rule-loop iteration. -/
inductive RuleOutcome where
  | skip (second_account : Option AccountDoc)
  | matched
  | err
deriving DecidableEq

/-- One iteration of the rule loop of `handle_bank_transaction` (lines
35-78), branch for branch.  `sa` is the function-local Python variable
`second_account`: it starts unbound (`none`), is (re)assigned only when a
Journal-Entry rule with a configured second account passes the company and
bank filters, and reading it while unbound raises `UnboundLocalError`
(`err`) at the currency guard — the latent defect recorded in the spec's
design notes. -/
def ruleStep (env : AutomationEnv) (doc : BTDoc) (ndesc : String)
    (sa : Option AccountDoc) (r : AutomationRule) : RuleOutcome :=
  if r.disabled then .skip sa
  else if r.company ≠ doc.company then .skip sa
  else if r.bank ≠ env.ba_bank then .skip sa
  else
    let sa := if r.document_type = "Journal Entry" ∧ r.second_account ≠ "" then
        some (env.accounts r.second_account)
      else sa
    match sa with
    | none => .err
    | some acc =>
        if env.ba_account.account_currency ≠ acc.account_currency then .skip (some acc)
        else if r.description_pattern = "" then .skip (some acc)
        else
          let normalized_pattern := normalize_string r.description_pattern
          if normalized_pattern = "" then .skip (some acc)
          else if pyTake ndesc normalized_pattern.length ≠ normalized_pattern then .skip (some acc)
          else .matched

/-- The rule loop: the first `matched` step wins and the loop `break`s;
a raised error aborts the whole handler. -/
def runRules (env : AutomationEnv) (doc : BTDoc) (ndesc : String) :
    List AutomationRule → Option AccountDoc → Except Unit (Option AutomationRule)
  | [], _ => .ok none
  | r :: rs, sa =>
      match ruleStep env doc ndesc sa r with
      | .skip sa' => runRules env doc ndesc rs sa'
      | .matched => .ok (some r)
      | .err => .error ()

/-- `handle_bank_transaction` up to the selection of the matching rule: the
rule returned is the one the loop creates the (single) Payment or Journal
Entry from before `break`ing; `none` means no posting is generated. -/
def handle_bank_transaction (env : AutomationEnv) (doc : BTDoc) :
    Except Unit (Option AutomationRule) :=
  if !env.enable_automation then .ok none
  else if doc.company = "" ∨ doc.bank_account = "" ∨ doc.description = "" then .ok none
  else runRules env doc (normalize_string doc.description) env.automation_rules none

/-- All rules of the list are skipped (no match, no error), ending with the
given `second_account` binding. -/
def skipsAll (env : AutomationEnv) (doc : BTDoc) (ndesc : String) :
    List AutomationRule → Option AccountDoc → Option (Option AccountDoc)
  | [], sa => some sa
  | r :: rs, sa =>
      match ruleStep env doc ndesc sa r with
      | .skip sa' => skipsAll env doc ndesc rs sa'
      | _ => none

/-! ## Posting pre-existence guards (bank_transaction_automation.py) -/

/-- A stored Payment Entry, with the fields of the duplicate filter plus no
others (the filter names exactly these four). -/
structure ExistingPE where
  reference_no : String
  reference_date : Option String
  received_amount : ℚ
  company : String
deriving DecidableEq

/-- A stored Journal Entry: the three fields of the duplicate filter, plus
the entry's own amount — carried by every Journal Entry but *not* named in
the filter. -/
structure ExistingJE where
  cheque_no : String
  cheque_date : Option String
  company : String
  total_amount : ℚ
deriving DecidableEq

/-- `amount = flt(transaction.deposit)` when the deposit is truthy, else
`flt(transaction.withdrawal)` (both generators compute it this way). -/
def postingAmount (t : BTDoc) : ℚ :=
  if t.deposit ≠ 0 then t.deposit else t.withdrawal

/-- The guard of `create_payment_entry_from_transaction` (lines 121-130):
`frappe.db.exists("Payment Entry", {reference_no, reference_date,
received_amount, company})` with the values copied from the transaction. -/
def pe_duplicate_exists (store : List ExistingPE) (t : BTDoc) : Bool :=
  store.any (fun e =>
    e.reference_no == t.reference_number && e.reference_date == t.date &&
      e.received_amount == postingAmount t && e.company == t.company)

/-- The guard of `create_journal_entry_from_transaction` (lines 237-245):
`frappe.db.exists("Journal Entry", {cheque_no, cheque_date, company})` —
no amount among the filters. -/
def je_duplicate_exists (store : List ExistingJE) (t : BTDoc) : Bool :=
  store.any (fun e =>
    e.cheque_no == t.reference_number && e.cheque_date == t.date && e.company == t.company)

/-- Modelled from the spec (the journal-side pre-existence check of claim
C4, which is not what the source implements): same reference, same date,
same amount, and same company. -/
def claim_je_duplicate_exists (store : List ExistingJE) (t : BTDoc) : Bool :=
  store.any (fun e =>
    e.cheque_no == t.reference_number && e.cheque_date == t.date &&
      e.total_amount == postingAmount t && e.company == t.company)

/-! ## Reconciliation linkers (bank_transaction_automation.py) -/

/-- A row of the Bank Transaction's `payment_entries` child table.
`payment_type` models `row.get("payment_type")`: this code never writes it,
so appended rows carry `none`. -/
structure PaymentEntryRow where
  payment_document : String
  payment_type : Option String
  payment_entry : String
  allocated_amount : ℚ
deriving DecidableEq

/-- A row of the Bank Transaction's `journal_entries` child table (the table
`reconcile_je_and_bt` scans). -/
structure JournalEntryRow where
  journal_entry : String
deriving DecidableEq

/-- The Bank Transaction state the linkers read and write. -/
structure BankTransactionDoc where
  docstatus : Nat
  status : String
  deposit : ℚ
  withdrawal : ℚ
  payment_entries : List PaymentEntryRow
  journal_entries : List JournalEntryRow
deriving DecidableEq

/-- The posting being linked: its stable identifier and lifecycle state. -/
structure PostingDoc where
  name : String
  docstatus : Nat
deriving DecidableEq

/-- `allocated_amount = flt(bt.deposit or bt.withdrawal)`. -/
def allocatedAmount (bt : BankTransactionDoc) : ℚ :=
  if bt.deposit ≠ 0 then bt.deposit else bt.withdrawal

/-- `reconcile_pe_and_bt` (lines 280-346): precondition on both docstatuses,
scan of `payment_entries` for an existing Payment-Entry link to the same
posting, append into `payment_entries`, best-effort status flip. -/
def reconcile_pe_and_bt (pe : PostingDoc) (bt : BankTransactionDoc) : BankTransactionDoc :=
  if pe.docstatus ≠ 1 then bt
  else if bt.docstatus ≠ 1 then bt
  else if bt.payment_entries.any (fun row =>
      (row.payment_document == "Payment Entry" || row.payment_type == some "Payment Entry") &&
        row.payment_entry == pe.name) then bt
  else
    { bt with
      payment_entries := bt.payment_entries ++
        [{ payment_document := "Payment Entry", payment_type := none,
           payment_entry := pe.name, allocated_amount := allocatedAmount bt }]
      status := "Reconciled" }

/-- `reconcile_je_and_bt` (lines 349-411): precondition on both docstatuses,
scan of the `journal_entries` table for an existing link, but the append
goes into `payment_entries` (with `payment_document = "Journal Entry"`) —
exactly as the source does, and contrary to its own docstring. -/
def reconcile_je_and_bt (je : PostingDoc) (bt : BankTransactionDoc) : BankTransactionDoc :=
  if je.docstatus ≠ 1 then bt
  else if bt.docstatus ≠ 1 then bt
  else if bt.journal_entries.any (fun row => row.journal_entry == je.name) then bt
  else
    { bt with
      payment_entries := bt.payment_entries ++
        [{ payment_document := "Journal Entry", payment_type := none,
           payment_entry := je.name, allocated_amount := allocatedAmount bt }]
      status := "Reconciled" }

/-- Reconciliation links to a given Payment Entry recorded on the
transaction. -/
def peLinkCount (bt : BankTransactionDoc) (ident : String) : Nat :=
  (bt.payment_entries.filter (fun row =>
    row.payment_document == "Payment Entry" && row.payment_entry == ident)).length

/-- Reconciliation links to a given Journal Entry recorded on the
transaction: rows of `payment_entries` carrying the Journal-Entry kind plus
rows of the `journal_entries` table. -/
def jeLinkCount (bt : BankTransactionDoc) (ident : String) : Nat :=
  (bt.payment_entries.filter (fun row =>
    row.payment_document == "Journal Entry" && row.payment_entry == ident)).length +
    (bt.journal_entries.filter (fun row => row.journal_entry == ident)).length

/-! ## Spec-side notions used to state the claims -/

/-- The signed amount of a derived transaction (incoming positive). -/
def signedAmount (t : Transaction) : ℚ :=
  t.deposit - t.withdrawal

/-- Sum of the signed transaction amounts, in file order. -/
def signedSum (ts : List Transaction) : ℚ :=
  (ts.map signedAmount).sum

/-- The running-balance chain of claim C3: each transaction's recorded
balance equals the previous one minus its withdrawal plus its deposit,
seeded from `b`. -/
def chainFrom (b : ℚ) : List Transaction → Prop
  | [] => True
  | t :: ts => t.bank_balance = b - t.withdrawal + t.deposit ∧ chainFrom t.bank_balance ts

/-- The final recorded running balance of a transaction list (the seed when
the list is empty). -/
def lastBalance (b : ℚ) : List Transaction → ℚ
  | [] => b
  | t :: ts => lastBalance t.bank_balance ts

/-- Modelled from the spec (claim C8): the description's lines in the
claimed fixed order, each line present exactly when its source value is
non-empty, the one deliberate separator following the ground line. -/
def specDescLines (ground : String) (amount : ℚ) (document_number date_written_str : String)
    (cp_role cp_name cp_account cp_idno cp_bank cp_bank_bic : String)
    (oper_type transaction_code : String) : List String :=
  (if ground ≠ "" then [ground] else []) ++
  (if ground ≠ "" then [""] else []) ++
  (if amount ≠ 0 then ["Amount: " ++ format2 amount] else []) ++
  (if document_number ≠ "" then ["Document Number: " ++ document_number] else []) ++
  (if date_written_str ≠ "" then ["Date Written: " ++ date_written_str] else []) ++
  (if cp_name ≠ "" then [cp_role ++ ": " ++ cp_name] else []) ++
  (if cp_idno ≠ "" then [cp_role ++ " IDNO: " ++ cp_idno] else []) ++
  (if cp_account ≠ "" then [cp_role ++ " Account: " ++ cp_account] else []) ++
  (if cp_bank ≠ "" then [cp_role ++ " Bank: " ++ cp_bank] else []) ++
  (if cp_bank_bic ≠ "" then [cp_role ++ " Bank BIC: " ++ cp_bank_bic] else []) ++
  (if oper_type ≠ "" ∨ transaction_code ≠ "" then
    [String.intercalate " / "
      ((if oper_type ≠ "" then ["OpType: " ++ oper_type] else []) ++
        (if transaction_code ≠ "" then ["TxnCode: " ++ transaction_code] else []))]
  else [])

/-! ## Sanity checks on the primitives -/

example : fltStr "150" = 150 := by decide
example : fltStr "-1.50" = -3/2 := by decide
example : fltStr ".5" = 1/2 := by decide
example : fltStr "abc" = 0 := by decide
example : format2 (1000 : ℚ) = "1000.00" := by decide
example : format2 (-3/2 : ℚ) = "-1.50" := by decide
example : format2 (850 : ℚ) = "850.00" := by decide
example : pyStrip "  a b\r" = "a b" := by decide
example : pyUpper "aCc=1" = "ACC=1" := by decide
example : containsSub "xDocStarty" "DocStart" = true := by decide
example : containsSub "xDocStar" "DocStart" = false := by decide

/-! ## Claim C1 — reconciliation linking idempotency -/

/-- C1: the claim states that invoking the reconciliation linker twice for
the same (posting, transaction) pair leaves exactly one link, for both
payment-style and journal-style postings.  The code violates this for the
journal side: `reconcile_je_and_bt` scans the `journal_entries` child table
for an existing link but appends its link into `payment_entries` —
contradicting its own docstring ("Adds a row into
Bank Transaction.journal_entries if not already present") — so the scan
never sees the row the first invocation added, and a second invocation on a
submitted Journal Entry `JE-001` against a fresh submitted transaction
records two links.  The payment side, by contrast, is idempotent at the
same inputs. -/
theorem C1_reconcile_twice_links :
    jeLinkCount
      (reconcile_je_and_bt ⟨"JE-001", 1⟩
        (reconcile_je_and_bt ⟨"JE-001", 1⟩
          ⟨1, "Pending", 100, 0, [], []⟩)) "JE-001" = 2 ∧
    peLinkCount
      (reconcile_pe_and_bt ⟨"PE-001", 1⟩
        (reconcile_pe_and_bt ⟨"PE-001", 1⟩
          ⟨1, "Pending", 100, 0, [], []⟩)) "PE-001" = 1 := by
  decide

/-! ## Claim C4 — posting pre-existence checks -/

/-- C4 counterexample: the claim says the pre-existence check for *either*
posting kind matches on same reference, same date, same amount and same
company.  For the journal kind the code's filter has no amount: a stored
Journal Entry with the same reference/date/company but amount 999 suppresses
creation of a posting for a transaction of amount 100, while the claimed
four-field check matches nothing. -/
theorem C4_counterexample :
    je_duplicate_exists [⟨"R1", some "2024-01-05", "C1", 999⟩]
        ⟨"BT-1", "C1", "BA-1", "d", 100, 0, "R1", some "2024-01-05"⟩ = true ∧
    claim_je_duplicate_exists [⟨"R1", some "2024-01-05", "C1", 999⟩]
        ⟨"BT-1", "C1", "BA-1", "d", 100, 0, "R1", some "2024-01-05"⟩ = false := by
  decide

/-- C4 (amended): before creating a posting the generators query for an
existing posting and skip creation when one matches — on (reference, date,
amount, company) for the payment kind, but only on (reference, date,
company), without the amount, for the journal kind. -/
theorem C4_preexistence_guards (peStore : List ExistingPE) (jeStore : List ExistingJE)
    (t : BTDoc) :
    (pe_duplicate_exists peStore t = true ↔
      ∃ e ∈ peStore, e.reference_no = t.reference_number ∧ e.reference_date = t.date ∧
        e.received_amount = postingAmount t ∧ e.company = t.company) ∧
    (je_duplicate_exists jeStore t = true ↔
      ∃ e ∈ jeStore, e.cheque_no = t.reference_number ∧ e.cheque_date = t.date ∧
        e.company = t.company) := by
  constructor
  · simp [pe_duplicate_exists, List.any_eq_true, and_assoc]
  · simp [je_duplicate_exists, List.any_eq_true, and_assoc]

/-! ## Claim C5 — format recognition -/

/-- C5 counterexample: the claim says the recognition check fails exactly
when the sentinel tags — all four of `DocStart`, `DocEnd` and the account
section begin/end markers — are entirely absent, and that an input
containing those sentinels is not rejected.  This input contains all four
of them, yet `is_dbo_format` rejects it (the code instead demands
`DocStart`, `DocEnd`, `BEGINDATE` and `ENDDATE`, and rejects when *any* one
is missing). -/
theorem C5_counterexample :
    is_dbo_format "DocStart\nDocEnd\nSECTIONACCOUNTSTART\nSECTIONACCOUNTSTOP" = false ∧
    containsSub "DocStart\nDocEnd\nSECTIONACCOUNTSTART\nSECTIONACCOUNTSTOP" "DocStart" = true ∧
    containsSub "DocStart\nDocEnd\nSECTIONACCOUNTSTART\nSECTIONACCOUNTSTOP" "DocEnd" = true ∧
    containsSub "DocStart\nDocEnd\nSECTIONACCOUNTSTART\nSECTIONACCOUNTSTOP"
      "SECTIONACCOUNTSTART" = true ∧
    containsSub "DocStart\nDocEnd\nSECTIONACCOUNTSTART\nSECTIONACCOUNTSTOP"
      "SECTIONACCOUNTSTOP" = true := by
  decide

/-- C5 (amended): the recognition check rejects an input exactly when at
least one of the four tags `DocStart`, `DocEnd`, `BEGINDATE`, `ENDDATE` is
absent from it; an input containing all four is accepted by this check. -/
theorem C5_recognition (content : String) :
    is_dbo_format content = false ↔
      ¬(containsSub content "DocStart" = true ∧ containsSub content "DocEnd" = true ∧
        containsSub content "BEGINDATE" = true ∧ containsSub content "ENDDATE" = true) := by
  simp [is_dbo_format, List.all, and_assoc]

/-! ## Helper lemmas on the document loop -/

/-- The balance recorded by one loop iteration is the incoming balance minus
the withdrawal plus the deposit it assigns. -/
theorem mkTxn_balance (a c : Option String) (b : ℚ) (d : Dict) :
    (mkTxn a c b d).bank_balance =
      b - (mkTxn a c b d).withdrawal + (mkTxn a c b d).deposit := by
  unfold mkTxn
  dsimp only
  split
  · ring
  · split
    · ring
    · ring

/-- One loop iteration never assigns both sides. -/
theorem mkTxn_excl (a c : Option String) (b : ℚ) (d : Dict) :
    (mkTxn a c b d).deposit = 0 ∨ (mkTxn a c b d).withdrawal = 0 := by
  unfold mkTxn
  dsimp only
  split
  · exact Or.inl rfl
  · split
    · exact Or.inr rfl
    · exact Or.inl rfl

/-- With a falsy header account neither direction branch can fire. -/
theorem mkTxn_no_account (a c : Option String) (b : ℚ) (d : Dict)
    (ha : truthyS a = false) :
    (mkTxn a c b d).deposit = 0 ∧ (mkTxn a c b d).withdrawal = 0 ∧
      (mkTxn a c b d).cp_role = "" ∧ (mkTxn a c b d).bank_balance = b := by
  unfold mkTxn
  simp [ha]

/-- The derived list records a valid balance chain from any seed. -/
theorem chainFrom_deriveAux (a c : Option String) :
    ∀ (docs : List Dict) (b : ℚ), chainFrom b (deriveAux a c b docs) := by
  intro docs
  induction docs with
  | nil => intro b; simp [deriveAux, chainFrom]
  | cons d ds ih =>
      intro b
      exact ⟨mkTxn_balance a c b d, ih _⟩

/-- A valid balance chain ends at the seed plus the signed sum. -/
theorem chain_lastBalance :
    ∀ (ts : List Transaction) (b : ℚ), chainFrom b ts →
      lastBalance b ts = b + signedSum ts := by
  intro ts
  induction ts with
  | nil => intro b _; simp [lastBalance, signedSum]
  | cons t ts ih =>
      intro b h
      obtain ⟨h1, h2⟩ := h
      have := ih _ h2
      simp only [lastBalance, signedSum, List.map_cons, List.sum_cons] at this ⊢
      rw [this, h1]
      simp [signedAmount]
      ring

/-- Every transaction in the derived list satisfies a property that holds of
every `mkTxn` result.  (Membership recursion for the document loop.) -/
theorem deriveAux_mem (a c : Option String) (P : Transaction → Prop)
    (hP : ∀ (b : ℚ) (d : Dict), P (mkTxn a c b d)) :
    ∀ (docs : List Dict) (b : ℚ), ∀ t ∈ deriveAux a c b docs, P t := by
  intro docs
  induction docs with
  | nil => intro b t ht; simp [deriveAux] at ht
  | cons d ds ih =>
      intro b t ht
      simp only [deriveAux, List.mem_cons] at ht
      rcases ht with h | h
      · exact h ▸ hP b d
      · exact ih _ t h

/-- One derived transaction per document block. -/
theorem deriveAux_length (a c : Option String) :
    ∀ (docs : List Dict) (b : ℚ), (deriveAux a c b docs).length = docs.length := by
  intro docs
  induction docs with
  | nil => intro b; rfl
  | cons d ds ih => intro b; simp [deriveAux, ih]

/-! ## Claim C3 — running balance -/

/-- C3: for every parsed statement, the balance recorded on each transaction
equals the previous recorded balance minus that transaction's withdrawal
plus its deposit, seeded from the header's opening balance (`STARTREST`);
consequently the final recorded balance is the opening balance plus the sum
of all signed transaction amounts in file order. -/
theorem C3_running_balance (content : String) :
    chainFrom (headerOpening (lexDBO content).1) (parse_dbo content) ∧
    lastBalance (headerOpening (lexDBO content).1) (parse_dbo content) =
      headerOpening (lexDBO content).1 + signedSum (parse_dbo content) := by
  have hchain : chainFrom (headerOpening (lexDBO content).1) (parse_dbo content) :=
    chainFrom_deriveAux _ _ _ _
  exact ⟨hchain, chain_lastBalance _ _ hchain⟩

/-! ## Claim C9 — deposit/withdrawal mutual exclusion -/

/-- C9: in every transaction derived from a statement, at most one of
deposit and withdrawal is non-zero. -/
theorem C9_mutual_exclusion (content : String) :
    ∀ t ∈ parse_dbo content, t.deposit = 0 ∨ t.withdrawal = 0 := by
  exact deriveAux_mem _ _ _ (fun b d => mkTxn_excl _ _ b d) _ _

/-- C9 witness: the single transaction of a concrete one-block statement. -/
theorem C9_mutual_exclusion_witness :
    ((parse_dbo "SECTIONACCOUNTSTART\nACCOUNT=MD001\nSTARTREST=1000\nSECTIONACCOUNTSTOP\nDocStart\nPAYERACCOUNT=MD001\nAMOUNT=150\nDocEnd\nBEGINDATE=01.01.2024\nENDDATE=31.01.2024").headD
        default).deposit = 0 ∨
    ((parse_dbo "SECTIONACCOUNTSTART\nACCOUNT=MD001\nSTARTREST=1000\nSECTIONACCOUNTSTOP\nDocStart\nPAYERACCOUNT=MD001\nAMOUNT=150\nDocEnd\nBEGINDATE=01.01.2024\nENDDATE=31.01.2024").headD
        default).withdrawal = 0 :=
  C9_mutual_exclusion
    "SECTIONACCOUNTSTART\nACCOUNT=MD001\nSTARTREST=1000\nSECTIONACCOUNTSTOP\nDocStart\nPAYERACCOUNT=MD001\nAMOUNT=150\nDocEnd\nBEGINDATE=01.01.2024\nENDDATE=31.01.2024"
    ((parse_dbo "SECTIONACCOUNTSTART\nACCOUNT=MD001\nSTARTREST=1000\nSECTIONACCOUNTSTOP\nDocStart\nPAYERACCOUNT=MD001\nAMOUNT=150\nDocEnd\nBEGINDATE=01.01.2024\nENDDATE=31.01.2024").headD
      default)
    (by decide)

/-! ## Claim C10 — no direction without a header account -/

/-- C10: when the statement header lacks an `ACCOUNT` value (missing or
empty), every derived transaction has zero deposit, zero withdrawal and an
empty counterparty role, and every recorded balance stays at the opening
balance. -/
theorem C10_no_account (header : Dict) (docs : List Dict)
    (ha : truthyS (headerAccount header) = false) :
    ∀ t ∈ deriveTransactions header docs,
      t.deposit = 0 ∧ t.withdrawal = 0 ∧ t.cp_role = "" ∧
        t.bank_balance = headerOpening header := by
  suffices h : ∀ (ds : List Dict) (b : ℚ),
      ∀ t ∈ deriveAux (headerAccount header) (headerCurrency header) b ds,
        t.deposit = 0 ∧ t.withdrawal = 0 ∧ t.cp_role = "" ∧ t.bank_balance = b by
    exact h docs (headerOpening header)
  intro ds
  induction ds with
  | nil => intro b t ht; simp [deriveAux] at ht
  | cons d rest ih =>
      intro b t ht
      simp only [deriveAux, List.mem_cons] at ht
      have hd := mkTxn_no_account (headerAccount header) (headerCurrency header) b d ha
      rcases ht with h | h
      · exact h ▸ hd
      · rw [hd.2.2.2] at h
        exact ih b t h

/-- C10 witness: a header with no `ACCOUNT` key, one block that names a
payer account and a non-zero amount. -/
theorem C10_no_account_witness :
    ((deriveTransactions [("STARTREST", "10")] [[("AMOUNT", "5"), ("PAYERACCOUNT", "X")]]).headD
        default).deposit = 0 ∧
    ((deriveTransactions [("STARTREST", "10")] [[("AMOUNT", "5"), ("PAYERACCOUNT", "X")]]).headD
        default).withdrawal = 0 ∧
    ((deriveTransactions [("STARTREST", "10")] [[("AMOUNT", "5"), ("PAYERACCOUNT", "X")]]).headD
        default).cp_role = "" ∧
    ((deriveTransactions [("STARTREST", "10")] [[("AMOUNT", "5"), ("PAYERACCOUNT", "X")]]).headD
        default).bank_balance = headerOpening [("STARTREST", "10")] :=
  C10_no_account [("STARTREST", "10")] [[("AMOUNT", "5"), ("PAYERACCOUNT", "X")]] (by decide)
    ((deriveTransactions [("STARTREST", "10")] [[("AMOUNT", "5"), ("PAYERACCOUNT", "X")]]).headD
      default)
    (by decide)

/-! ## Claim C6 — direction inference -/

/-- C6: with a (non-empty) header account, a block whose payer account
equals it and whose amount is non-zero becomes a withdrawal of that amount
with the receiver as counterparty (role "Receiver") and the balance reduced
by the amount; a block whose receiver account equals it (payer not
matching) becomes a deposit with the payer as counterparty (role "Payer")
and the balance increased; when the amount is zero or neither side matches,
a transaction is still produced — one per block — with zero deposit and
withdrawal, no counterparty role, and the balance unchanged. -/
theorem C6_direction (a : String) (cur : Option String) (b : ℚ) (d : Dict) (ha : a ≠ "") :
    (fltStr ((dictGet d "AMOUNT").getD "") ≠ 0 → dgetS d "PAYERACCOUNT" = a →
      (mkTxn (some a) cur b d).withdrawal = fltStr ((dictGet d "AMOUNT").getD "") ∧
      (mkTxn (some a) cur b d).deposit = 0 ∧
      (mkTxn (some a) cur b d).cp_role = "Receiver" ∧
      (mkTxn (some a) cur b d).cp_name = dgetS d "RECEIVER" ∧
      (mkTxn (some a) cur b d).cp_account = dgetS d "RECEIVERACCOUNT" ∧
      (mkTxn (some a) cur b d).cp_idno = dgetS d "RECEIVERFCODE" ∧
      (mkTxn (some a) cur b d).cp_bank = dgetS d "RECEIVERBANK" ∧
      (mkTxn (some a) cur b d).cp_bank_bic = dgetS d "RECEIVERBANKBIC" ∧
      (mkTxn (some a) cur b d).bank_balance = b - fltStr ((dictGet d "AMOUNT").getD "")) ∧
    (fltStr ((dictGet d "AMOUNT").getD "") ≠ 0 → dgetS d "PAYERACCOUNT" ≠ a →
      dgetS d "RECEIVERACCOUNT" = a →
      (mkTxn (some a) cur b d).deposit = fltStr ((dictGet d "AMOUNT").getD "") ∧
      (mkTxn (some a) cur b d).withdrawal = 0 ∧
      (mkTxn (some a) cur b d).cp_role = "Payer" ∧
      (mkTxn (some a) cur b d).cp_name = dgetS d "PAYER" ∧
      (mkTxn (some a) cur b d).cp_account = dgetS d "PAYERACCOUNT" ∧
      (mkTxn (some a) cur b d).cp_idno = dgetS d "PAYERFCODE" ∧
      (mkTxn (some a) cur b d).cp_bank = dgetS d "PAYERBANK" ∧
      (mkTxn (some a) cur b d).cp_bank_bic = dgetS d "PAYERBANKBIC" ∧
      (mkTxn (some a) cur b d).bank_balance = b + fltStr ((dictGet d "AMOUNT").getD "")) ∧
    ((fltStr ((dictGet d "AMOUNT").getD "") = 0 ∨
        (dgetS d "PAYERACCOUNT" ≠ a ∧ dgetS d "RECEIVERACCOUNT" ≠ a)) →
      (mkTxn (some a) cur b d).deposit = 0 ∧ (mkTxn (some a) cur b d).withdrawal = 0 ∧
      (mkTxn (some a) cur b d).cp_role = "" ∧ (mkTxn (some a) cur b d).bank_balance = b) ∧
    (∀ ds : List Dict, (deriveAux (some a) cur b ds).length = ds.length) := by
  refine ⟨?_, ?_, ?_, fun ds => deriveAux_length (some a) cur ds b⟩
  · intro h1 h2
    unfold mkTxn
    simp [truthyS, ha, h2, h1]
  · intro h1 h2 h3
    unfold mkTxn
    simp [truthyS, ha, h2, h3, h1]
  · intro h
    rcases h with h | ⟨hp, hr⟩
    · unfold mkTxn
      simp [h]
    · unfold mkTxn
      simp [truthyS, ha, hp, hr]

/-- C6 witness: the spec's worked example block (payer account matches the
header account `MD001`, amount 150, seed balance 1000). -/
theorem C6_direction_witness :
    (mkTxn (some "MD001") none 1000
        [("PAYERACCOUNT", "MD001"), ("AMOUNT", "150"), ("RECEIVERACCOUNT", "MD999"),
          ("RECEIVER", "ACME"), ("RECEIVERFCODE", "1234567")]).withdrawal =
      fltStr ((dictGet
        [("PAYERACCOUNT", "MD001"), ("AMOUNT", "150"), ("RECEIVERACCOUNT", "MD999"),
          ("RECEIVER", "ACME"), ("RECEIVERFCODE", "1234567")] "AMOUNT").getD "") ∧
    (mkTxn (some "MD001") none 1000
        [("PAYERACCOUNT", "MD001"), ("AMOUNT", "150"), ("RECEIVERACCOUNT", "MD999"),
          ("RECEIVER", "ACME"), ("RECEIVERFCODE", "1234567")]).deposit = 0 ∧
    (mkTxn (some "MD001") none 1000
        [("PAYERACCOUNT", "MD001"), ("AMOUNT", "150"), ("RECEIVERACCOUNT", "MD999"),
          ("RECEIVER", "ACME"), ("RECEIVERFCODE", "1234567")]).cp_role = "Receiver" ∧
    (mkTxn (some "MD001") none 1000
        [("PAYERACCOUNT", "MD001"), ("AMOUNT", "150"), ("RECEIVERACCOUNT", "MD999"),
          ("RECEIVER", "ACME"), ("RECEIVERFCODE", "1234567")]).cp_name =
      dgetS
        [("PAYERACCOUNT", "MD001"), ("AMOUNT", "150"), ("RECEIVERACCOUNT", "MD999"),
          ("RECEIVER", "ACME"), ("RECEIVERFCODE", "1234567")] "RECEIVER" ∧
    (mkTxn (some "MD001") none 1000
        [("PAYERACCOUNT", "MD001"), ("AMOUNT", "150"), ("RECEIVERACCOUNT", "MD999"),
          ("RECEIVER", "ACME"), ("RECEIVERFCODE", "1234567")]).cp_account =
      dgetS
        [("PAYERACCOUNT", "MD001"), ("AMOUNT", "150"), ("RECEIVERACCOUNT", "MD999"),
          ("RECEIVER", "ACME"), ("RECEIVERFCODE", "1234567")] "RECEIVERACCOUNT" ∧
    (mkTxn (some "MD001") none 1000
        [("PAYERACCOUNT", "MD001"), ("AMOUNT", "150"), ("RECEIVERACCOUNT", "MD999"),
          ("RECEIVER", "ACME"), ("RECEIVERFCODE", "1234567")]).cp_idno =
      dgetS
        [("PAYERACCOUNT", "MD001"), ("AMOUNT", "150"), ("RECEIVERACCOUNT", "MD999"),
          ("RECEIVER", "ACME"), ("RECEIVERFCODE", "1234567")] "RECEIVERFCODE" ∧
    (mkTxn (some "MD001") none 1000
        [("PAYERACCOUNT", "MD001"), ("AMOUNT", "150"), ("RECEIVERACCOUNT", "MD999"),
          ("RECEIVER", "ACME"), ("RECEIVERFCODE", "1234567")]).cp_bank =
      dgetS
        [("PAYERACCOUNT", "MD001"), ("AMOUNT", "150"), ("RECEIVERACCOUNT", "MD999"),
          ("RECEIVER", "ACME"), ("RECEIVERFCODE", "1234567")] "RECEIVERBANK" ∧
    (mkTxn (some "MD001") none 1000
        [("PAYERACCOUNT", "MD001"), ("AMOUNT", "150"), ("RECEIVERACCOUNT", "MD999"),
          ("RECEIVER", "ACME"), ("RECEIVERFCODE", "1234567")]).cp_bank_bic =
      dgetS
        [("PAYERACCOUNT", "MD001"), ("AMOUNT", "150"), ("RECEIVERACCOUNT", "MD999"),
          ("RECEIVER", "ACME"), ("RECEIVERFCODE", "1234567")] "RECEIVERBANKBIC" ∧
    (mkTxn (some "MD001") none 1000
        [("PAYERACCOUNT", "MD001"), ("AMOUNT", "150"), ("RECEIVERACCOUNT", "MD999"),
          ("RECEIVER", "ACME"), ("RECEIVERFCODE", "1234567")]).bank_balance =
      1000 - fltStr ((dictGet
        [("PAYERACCOUNT", "MD001"), ("AMOUNT", "150"), ("RECEIVERACCOUNT", "MD999"),
          ("RECEIVER", "ACME"), ("RECEIVERFCODE", "1234567")] "AMOUNT").getD "") :=
  (C6_direction "MD001" none 1000
    [("PAYERACCOUNT", "MD001"), ("AMOUNT", "150"), ("RECEIVERACCOUNT", "MD999"),
      ("RECEIVER", "ACME"), ("RECEIVERFCODE", "1234567")] (by decide)).1
    (by decide) (by decide)

/-! ## Claim C8 — description synthesis -/

/-- A conditional append commutes into a conditional chunk. -/
theorem ite_append_form (c : Prop) [Decidable c] (l x : List String) :
    (if c then l ++ x else l) = l ++ (if c then x else []) := by
  split <;> simp

set_option maxHeartbeats 2000000 in
/-- The imperative line builder of the source equals the spec's fixed-order
conditional-line list, given the parser invariant that an empty role comes
with empty counterparty fields. -/
theorem descLines_eq_spec (ground : String) (amount : ℚ)
    (dn dw role name acct idno bank bic ot tc : String)
    (hcp : role = "" → name = "" ∧ acct = "" ∧ idno = "" ∧ bank = "" ∧ bic = "") :
    descLines ground amount dn dw role name acct idno bank bic ot tc =
      specDescLines ground amount dn dw role name acct idno bank bic ot tc := by
  unfold descLines specDescLines
  by_cases hg : ground = "" <;> by_cases hot : ot = "" <;> by_cases htc : tc = ""
  all_goals (
    by_cases hrole : role = ""
    case pos =>
      obtain ⟨hn, hA, hi, hb, hbic⟩ := hcp hrole
      simp [hg, hot, htc, hrole, hn, hA, hi, hb, hbic]
      try (split_ifs <;> simp)
    case neg =>
      by_cases hn : name = "" <;> by_cases hA : acct = "" <;> by_cases hi : idno = "" <;>
        by_cases hb : bank = "" <;> by_cases hbic : bic = ""
      all_goals (
        simp [hg, hot, htc, hrole, hn, hA, hi, hb, hbic]
        try (split_ifs <;> simp)
      )
  )

/-- C8: every derived transaction's description is the newline-join of the
lines in the claimed fixed order — ground text, a blank separator only when
a ground line was emitted, the 2-decimal amount, the document number, the
raw date-written string, the role-prefixed counterparty name/IDNO/account/
bank/BIC lines, and the optional OpType/TxnCode technical line — each line
present exactly when its source value is non-empty, with no other empty
placeholder lines. -/
theorem C8_description (a cur : Option String) (b : ℚ) (d : Dict) :
    (mkTxn a cur b d).description =
      String.intercalate "\n"
        (specDescLines (dgetS d "GROUND") (fltStr ((dictGet d "AMOUNT").getD ""))
          (dgetS d "DOCUMENTNUMBER") (dgetS d "DATEWRITTEN")
          (mkTxn a cur b d).cp_role (mkTxn a cur b d).cp_name (mkTxn a cur b d).cp_account
          (mkTxn a cur b d).cp_idno (mkTxn a cur b d).cp_bank (mkTxn a cur b d).cp_bank_bic
          (dgetS d "OPERTYPE") (dgetS d "TRANSACTIONCODE")) := by
  unfold mkTxn
  dsimp only
  split
  · exact congrArg _ (descLines_eq_spec _ _ _ _ _ _ _ _ _ _ _ _ (fun h => by simp at h))
  · split
    · exact congrArg _ (descLines_eq_spec _ _ _ _ _ _ _ _ _ _ _ _ (fun h => by simp at h))
    · exact congrArg _ (descLines_eq_spec _ _ _ _ _ _ _ _ _ _ _ _
        (fun _ => ⟨rfl, rfl, rfl, rfl, rfl⟩))

/-! ## Claim C7 — first enabled matching rule wins -/

/-- The rule loop returns the first matching rule: if every rule of `pre` is
skipped (ending in second-account binding `sa'`) and `m` then matches, the
loop stops at `m` no matter what follows it. -/
theorem runRules_first (env : AutomationEnv) (doc : BTDoc) (ndesc : String)
    (pre : List AutomationRule) :
    ∀ (sa sa' : Option AccountDoc) (m : AutomationRule) (post : List AutomationRule),
      skipsAll env doc ndesc pre sa = some sa' →
      ruleStep env doc ndesc sa' m = .matched →
      runRules env doc ndesc (pre ++ m :: post) sa = .ok (some m) := by
  induction pre with
  | nil =>
      intro sa sa' m post h1 h2
      simp only [skipsAll, Option.some.injEq] at h1
      subst h1
      simp [runRules, h2]
  | cons r rs ih =>
      intro sa sa' m post h1 h2
      simp only [skipsAll] at h1
      cases hstep : ruleStep env doc ndesc sa r with
      | skip sa2 =>
          rw [hstep] at h1
          simp only [List.cons_append, runRules, hstep]
          exact ih sa2 sa' m post h1 h2
      | matched => rw [hstep] at h1; simp at h1
      | err => rw [hstep] at h1; simp at h1

/-- C7: when automation is enabled and the transaction passes the defensive
checks, and the configured rule list splits into a prefix that the loop
skips (no match, no error), a rule `m` that matches, and an arbitrary rest,
then the handler produces its posting from `m` — the first enabled matching
rule in configured order.  Evaluation stops there: the rules after `m` are
irrelevant, and the return type records the single rule from which the one
posting is generated. -/
theorem C7_first_match_wins (env : AutomationEnv) (doc : BTDoc)
    (pre post : List AutomationRule) (m : AutomationRule) (sa : Option AccountDoc)
    (henv : env.enable_automation = true)
    (hc : doc.company ≠ "") (hb : doc.bank_account ≠ "") (hd : doc.description ≠ "")
    (hrules : env.automation_rules = pre ++ m :: post)
    (h1 : skipsAll env doc (normalize_string doc.description) pre none = some sa)
    (h2 : ruleStep env doc (normalize_string doc.description) sa m = .matched) :
    handle_bank_transaction env doc = .ok (some m) := by
  unfold handle_bank_transaction
  rw [henv, hrules]
  rw [if_neg (by simp), if_neg (by simp [hc, hb, hd])]
  exact runRules_first env doc _ pre none sa m post h1 h2

/-- C7 witness: a disabled copy of the rule first, then two enabled rules
whose normalized patterns (`salary`, `sal`) both prefix-match the
normalized description `salarymarch2024`; the posting comes from the first
of the two. -/
theorem C7_first_match_wins_witness :
    handle_bank_transaction
      ⟨true,
        [⟨true, "C", "B", "Journal Entry", "ACC2", "SALARY"⟩,
          ⟨false, "C", "B", "Journal Entry", "ACC2", "SALARY"⟩,
          ⟨false, "C", "B", "Journal Entry", "ACC2", "Sal"⟩],
        "B", ⟨"BANK", "MDL"⟩, fun _ => ⟨"ACC2", "MDL"⟩⟩
      ⟨"BT1", "C", "BA1", "Salary March 2024", 100, 0, "R", none⟩ =
      .ok (some ⟨false, "C", "B", "Journal Entry", "ACC2", "SALARY"⟩) :=
  C7_first_match_wins
    ⟨true,
      [⟨true, "C", "B", "Journal Entry", "ACC2", "SALARY"⟩,
        ⟨false, "C", "B", "Journal Entry", "ACC2", "SALARY"⟩,
        ⟨false, "C", "B", "Journal Entry", "ACC2", "Sal"⟩],
      "B", ⟨"BANK", "MDL"⟩, fun _ => ⟨"ACC2", "MDL"⟩⟩
    ⟨"BT1", "C", "BA1", "Salary March 2024", 100, 0, "R", none⟩
    [⟨true, "C", "B", "Journal Entry", "ACC2", "SALARY"⟩]
    [⟨false, "C", "B", "Journal Entry", "ACC2", "Sal"⟩]
    ⟨false, "C", "B", "Journal Entry", "ACC2", "SALARY"⟩
    none
    rfl (by decide) (by decide) (by decide) rfl (by decide) (by decide)

/-! ## Claim C2 — the duplicate fingerprint -/

/-- Keys built from five `::`-joined components: when four components agree,
key equality is exactly equality of the remaining component. -/
theorem key5_single_slot (a1 b1 c1 d1 e1 a2 b2 c2 d2 e2 : String) :
    (b1 = b2 → c1 = c2 → d1 = d2 → e1 = e2 →
      (a1 ++ "::" ++ b1 ++ "::" ++ c1 ++ "::" ++ d1 ++ "::" ++ e1 =
        a2 ++ "::" ++ b2 ++ "::" ++ c2 ++ "::" ++ d2 ++ "::" ++ e2 ↔ a1 = a2)) ∧
    (a1 = a2 → c1 = c2 → d1 = d2 → e1 = e2 →
      (a1 ++ "::" ++ b1 ++ "::" ++ c1 ++ "::" ++ d1 ++ "::" ++ e1 =
        a2 ++ "::" ++ b2 ++ "::" ++ c2 ++ "::" ++ d2 ++ "::" ++ e2 ↔ b1 = b2)) ∧
    (a1 = a2 → b1 = b2 → d1 = d2 → e1 = e2 →
      (a1 ++ "::" ++ b1 ++ "::" ++ c1 ++ "::" ++ d1 ++ "::" ++ e1 =
        a2 ++ "::" ++ b2 ++ "::" ++ c2 ++ "::" ++ d2 ++ "::" ++ e2 ↔ c1 = c2)) ∧
    (a1 = a2 → b1 = b2 → c1 = c2 → e1 = e2 →
      (a1 ++ "::" ++ b1 ++ "::" ++ c1 ++ "::" ++ d1 ++ "::" ++ e1 =
        a2 ++ "::" ++ b2 ++ "::" ++ c2 ++ "::" ++ d2 ++ "::" ++ e2 ↔ d1 = d2)) ∧
    (a1 = a2 → b1 = b2 → c1 = c2 → d1 = d2 →
      (a1 ++ "::" ++ b1 ++ "::" ++ c1 ++ "::" ++ d1 ++ "::" ++ e1 =
        a2 ++ "::" ++ b2 ++ "::" ++ c2 ++ "::" ++ d2 ++ "::" ++ e2 ↔ e1 = e2)) := by
  refine ⟨?_, ?_, ?_, ?_, ?_⟩ <;> intro h1 h2 h3 h4 <;> subst h1 <;> subst h2 <;>
    subst h3 <;> subst h4 <;> constructor <;> intro hk
  · have hd := congrArg String.data hk
    simp only [String.data_append, List.append_assoc] at hd
    exact String.ext (List.append_cancel_right hd)
  · rw [hk]
  · have hd := congrArg String.data hk
    simp only [String.data_append, List.append_assoc] at hd
    exact String.ext (List.append_cancel_right
      (List.append_cancel_left (List.append_cancel_left hd)))
  · rw [hk]
  · have hd := congrArg String.data hk
    simp only [String.data_append, List.append_assoc] at hd
    exact String.ext (List.append_cancel_right
      (List.append_cancel_left (List.append_cancel_left
        (List.append_cancel_left (List.append_cancel_left hd)))))
  · rw [hk]
  · have hd := congrArg String.data hk
    simp only [String.data_append, List.append_assoc] at hd
    exact String.ext (List.append_cancel_right
      (List.append_cancel_left (List.append_cancel_left
        (List.append_cancel_left (List.append_cancel_left
          (List.append_cancel_left (List.append_cancel_left hd)))))))
  · rw [hk]
  · have hd := congrArg String.data hk
    simp only [String.data_append, List.append_assoc] at hd
    exact String.ext
      (List.append_cancel_left (List.append_cancel_left
        (List.append_cancel_left (List.append_cancel_left
          (List.append_cancel_left (List.append_cancel_left
            (List.append_cancel_left (List.append_cancel_left hd))))))))
  · rw [hk]

/-- C2 counterexample: the claim requires the synthesized description as an
additional match key when the reference number is empty, and restricts the
match to non-cancelled stored records.  The code's key never contains the
description — two empty-reference transactions agreeing on the five key
fields but with different descriptions are treated as duplicates — and a
cancelled stored record (docstatus 2) also suppresses the insert. -/
theorem C2_counterexample :
    ensure_unique_skips
        [⟨"C1", "BA", some "2024-01-05", 100, 0, "", "payment for apples", 1⟩]
        ⟨"C1", "BA", some "2024-01-05", 100, 0, "", "entirely different text", 0⟩ = true ∧
    claimDuplicateMatch
        ⟨"C1", "BA", some "2024-01-05", 100, 0, "", "payment for apples", 1⟩
        ⟨"C1", "BA", some "2024-01-05", 100, 0, "", "entirely different text", 0⟩ = false ∧
    ensure_unique_skips
        [⟨"C1", "BA", some "2024-01-05", 100, 0, "R9", "d", 2⟩]
        ⟨"C1", "BA", some "2024-01-05", 100, 0, "R9", "d", 0⟩ = true ∧
    claimDuplicateMatch
        ⟨"C1", "BA", some "2024-01-05", 100, 0, "R9", "d", 2⟩
        ⟨"C1", "BA", some "2024-01-05", 100, 0, "R9", "d", 0⟩ = false := by
  decide

/-- C2 (amended): the guard skips a candidate exactly when some previously
stored record — of any lifecycle state, cancelled included — has an equal
unique key; the key is built from exactly (company, bank account, ISO
posting date, 2-decimal signed amount, trimmed reference number), so the
description and the lifecycle state never affect it, and whenever the other
four components agree, a match holds exactly when the remaining field's
component agrees (any single differing field prevents the match). -/
theorem C2_fingerprint (stored : List BTCand) (s t : BTCand) :
    (ensure_unique_skips stored t = true ↔ ∃ x ∈ stored, btKey x = btKey t) ∧
    (∀ dsc : String, ∀ dst : Nat,
      btKey { s with description := dsc, docstatus := dst } = btKey s) ∧
    (s.bank_account = t.bank_account → s.date.getD "" = t.date.getD "" →
      format2 (s.deposit - s.withdrawal) = format2 (t.deposit - t.withdrawal) →
      pyStrip s.reference_number = pyStrip t.reference_number →
      (btKey s = btKey t ↔ s.company = t.company)) ∧
    (s.company = t.company → s.date.getD "" = t.date.getD "" →
      format2 (s.deposit - s.withdrawal) = format2 (t.deposit - t.withdrawal) →
      pyStrip s.reference_number = pyStrip t.reference_number →
      (btKey s = btKey t ↔ s.bank_account = t.bank_account)) ∧
    (s.company = t.company → s.bank_account = t.bank_account →
      format2 (s.deposit - s.withdrawal) = format2 (t.deposit - t.withdrawal) →
      pyStrip s.reference_number = pyStrip t.reference_number →
      (btKey s = btKey t ↔ s.date.getD "" = t.date.getD "")) ∧
    (s.company = t.company → s.bank_account = t.bank_account →
      s.date.getD "" = t.date.getD "" →
      pyStrip s.reference_number = pyStrip t.reference_number →
      (btKey s = btKey t ↔
        format2 (s.deposit - s.withdrawal) = format2 (t.deposit - t.withdrawal))) ∧
    (s.company = t.company → s.bank_account = t.bank_account →
      s.date.getD "" = t.date.getD "" →
      format2 (s.deposit - s.withdrawal) = format2 (t.deposit - t.withdrawal) →
      (btKey s = btKey t ↔
        pyStrip s.reference_number = pyStrip t.reference_number)) := by
  refine ⟨?_, fun dsc dst => rfl, ?_, ?_, ?_, ?_, ?_⟩
  · simp [ensure_unique_skips, List.any_eq_true]
  · exact (key5_single_slot s.company s.bank_account (s.date.getD "")
      (format2 (s.deposit - s.withdrawal)) (pyStrip s.reference_number)
      t.company t.bank_account (t.date.getD "")
      (format2 (t.deposit - t.withdrawal)) (pyStrip t.reference_number)).1
  · exact (key5_single_slot s.company s.bank_account (s.date.getD "")
      (format2 (s.deposit - s.withdrawal)) (pyStrip s.reference_number)
      t.company t.bank_account (t.date.getD "")
      (format2 (t.deposit - t.withdrawal)) (pyStrip t.reference_number)).2.1
  · exact (key5_single_slot s.company s.bank_account (s.date.getD "")
      (format2 (s.deposit - s.withdrawal)) (pyStrip s.reference_number)
      t.company t.bank_account (t.date.getD "")
      (format2 (t.deposit - t.withdrawal)) (pyStrip t.reference_number)).2.2.1
  · exact (key5_single_slot s.company s.bank_account (s.date.getD "")
      (format2 (s.deposit - s.withdrawal)) (pyStrip s.reference_number)
      t.company t.bank_account (t.date.getD "")
      (format2 (t.deposit - t.withdrawal)) (pyStrip t.reference_number)).2.2.2.1
  · exact (key5_single_slot s.company s.bank_account (s.date.getD "")
      (format2 (s.deposit - s.withdrawal)) (pyStrip s.reference_number)
      t.company t.bank_account (t.date.getD "")
      (format2 (t.deposit - t.withdrawal)) (pyStrip t.reference_number)).2.2.2.2

/-- C2 witness: two candidates agreeing on the other four key fields but
with different companies — their keys match exactly when `"C1" = "C2"`,
i.e. never. -/
theorem C2_fingerprint_witness :
    btKey ⟨"C1", "BA", some "2024-01-05", 100, 0, "R1", "x", 1⟩ =
        btKey ⟨"C2", "BA", some "2024-01-05", 100, 0, "R1", "y", 1⟩ ↔
      ("C1" : String) = "C2" :=
  (C2_fingerprint [] ⟨"C1", "BA", some "2024-01-05", 100, 0, "R1", "x", 1⟩
    ⟨"C2", "BA", some "2024-01-05", 100, 0, "R1", "y", 1⟩).2.2.1
    (by decide) (by decide) (by decide) (by decide)
